import Mathlib

/-
  Verification of the profile-resolution / build-sequencing subsystem of the
  terminus_setup repository.

  Shallow embedding of:
    * scripts/utils/tmns-build-all.py   (TerminusRepo, TerminusProfile,
                                         load_profile, main)
    * scripts/utils/tmns-clone-repos.py (tag-filtered clone selection loop)
    * scripts/utils/tmns/profile.py     (Repo)

  Python values that may be `None` are embedded as `Option`; a computation
  that raises an uncaught Python exception (KeyError / TypeError /
  AttributeError / ValueError) is embedded as `PyResult.exn`.  The
  filesystem, the external `conan-build.sh` collaborator and the parsed
  contents of configuration files are abstracted into an explicit
  environment `Env`.
-/

namespace TerminusSetup

/-- Outcome of running a fragment of Python code: a value, or an uncaught
exception escaping the fragment. -/
inductive PyResult (α : Type) where
  | ok (val : α) : PyResult α
  | exn : PyResult α
deriving DecidableEq

/-- Map a function over the value of a `PyResult`. -/
def PyResult.map {α β : Type} (f : α → β) : PyResult α → PyResult β
  | .ok a => .ok (f a)
  | .exn => .exn

/-- Embedding of Python `str.split(c)` for a single-character separator,
acting on a list of characters.  `"".split(c) == ['']`, matching `[[]]`. -/
def splitCharList (c : Char) : List Char → List (List Char)
  | [] => [[]]
  | x :: xs =>
    match splitCharList c xs with
    | [] => [[]]
    | g :: gs => if x = c then [] :: g :: gs else (x :: g) :: gs

/-- Embedding of Python `str.split(c)` for a single-character separator. -/
def pySplitChar (c : Char) (s : String) : List String :=
  (splitCharList c s.data).map String.mk

/-- Embedding of Python `str.strip(chars)`: drop the given characters from
both ends of the string. -/
def pyStrip (cs : List Char) (s : String) : String :=
  ⟨((s.data.dropWhile cs.contains).reverse.dropWhile cs.contains).reverse⟩

/-- ASCII lower-casing of one character (enough for `str.lower()` as used by
`configparser.getboolean`). -/
def pyLowerChar (c : Char) : Char :=
  if 'A' ≤ c ∧ c ≤ 'Z' then Char.ofNat (c.toNat + 32) else c

/-- Embedding of Python `str.lower()`. -/
def pyLower (s : String) : String :=
  ⟨s.data.map pyLowerChar⟩

/-- `configparser`'s boolean-state table: `'1'/'yes'/'true'/'on'` map to
`True`, `'0'/'no'/'false'/'off'` map to `False`, anything else raises
`ValueError`. -/
def pyStrToBool (s : String) : PyResult Bool :=
  let l := pyLower s
  if l = "1" ∨ l = "yes" ∨ l = "true" ∨ l = "on" then .ok true
  else if l = "0" ∨ l = "no" ∨ l = "false" ∨ l = "off" then .ok false
  else .exn

/-- Abstract parsed contents of an INI-style configuration file: ordered
sections, each an ordered association list of options. -/
structure Config where
  sections : List (String × List (String × String))
deriving DecidableEq

/-- Lookup of a section by name (`parser[name]` without the KeyError). -/
def Config.findSection (c : Config) (name : String) : Option (List (String × String)) :=
  (c.sections.find? (fun s => s.1 == name)).map (fun s => s.2)

/-- Lookup of an option inside a section (`SectionProxy.get(key)`, which
returns `None` when the key is absent). -/
def lookupKey (kvs : List (String × String)) (k : String) : Option String :=
  (kvs.find? (fun kv => kv.1 == k)).map (fun kv => kv.2)

/-- `ConfigParser.get(sec, key)` returning `none` when section or key is
missing (the caller decides whether that raises). -/
def Config.getValue (c : Config) (sec key : String) : Option String :=
  (c.findSection sec).bind (fun kvs => lookupKey kvs key)

/-- `SectionProxy.getboolean(key)`: `none` when the key is absent, `exn`
when the value is not one of the recognized boolean spellings. -/
def getbooleanOpt (kvs : List (String × String)) (k : String) : PyResult (Option Bool) :=
  match lookupKey kvs k with
  | none => .ok none
  | some v =>
    match pyStrToBool v with
    | .ok b => .ok (some b)
    | .exn => .exn

/-- The ambient world the scripts interact with: which paths exist
(`os.path.exists`), the exit status of a shell command run from a given
working directory (`subprocess.run(..., shell=True)`), and the parsed
contents of the configuration file found at a given path
(`ConfigParser.read`). -/
structure Env where
  pathExists : String → Bool
  runCmd : String → String → Nat
  fileConfig : String → Config

/-- tmns-build-all.py line 27. -/
def DEFAULT_PROFILE_PATH : String := "tmns-profile.cfg"

/-- tmns-build-all.py lines 29-36. -/
def DEFAULT_REPO_LIST : List String :=
  ["terminus-cmake", "terminus-log", "terminus-outcome", "terminus-core",
   "terminus-math", "terminus-nitf", "terminus-image", "terminus-cpp-demos"]

/-- The fields of `TerminusRepo` (tmns-build-all.py lines 38-58).  Python
stores whatever `__init__` receives; the profile loader can pass `None` for
`repo_path` (missing `path` key) and for `clean_repo` (missing `clean_repo`
key), hence the `Option` types. -/
structure TerminusRepo where
  repo_name : String
  repo_path : Option String
  build_modes : List String
  clean_repo : Option Bool
  build_missing : Bool
deriving DecidableEq

/-- `TerminusRepo.__init__` (tmns-build-all.py lines 40-58): store the
arguments, then (a) an empty mode list becomes `['release','debug']` and
(b) more than one mode forces `clean_repo = True`. -/
def TerminusRepo.init (repo_name : String) (repo_path : Option String)
    (build_modes : List String) (clean_repo : Option Bool)
    (build_missing : Bool) : TerminusRepo :=
  let build_modes2 := if build_modes.length = 0 then ["release", "debug"] else build_modes
  let clean_repo2 := if build_modes2.length > 1 then some true else clean_repo
  ⟨repo_name, repo_path, build_modes2, clean_repo2, build_missing⟩

/-- `TerminusRepo.get_build_command` (tmns-build-all.py lines 60-73).  The
`build_flags` dict maps only `'release'` and `'debug'`; the `clean_flag`
dict maps only `True` and `False`: any other key (including `None`) raises
`KeyError`, embedded as `none`. -/
def get_build_command (build_mode : String) (clean_repo : Option Bool)
    (build_missing : Bool) : Option String :=
  match (if build_mode = "release" then some "-r"
         else if build_mode = "debug" then some "" else none),
        (match clean_repo with
         | some true => some "-c"
         | some false => some ""
         | none => none) with
  | some bf, some cf =>
    some ("conan-build.sh " ++ bf ++ " " ++ cf ++ " " ++
          (if build_missing then "--build-missing" else ""))
  | _, _ => none

/-- The `for build_mode in self.build_modes` loop of `TerminusRepo.build`
(tmns-build-all.py lines 88-100), run from working directory `rp`.
Returns, on normal termination, whether every mode succeeded together with
the list of build commands actually invoked, in order; a non-zero exit
status stops the loop at once (`return False`). -/
def buildModesLoop (env : Env) (rp : String) (cr : Option Bool) (bmiss : Bool) :
    List String → PyResult (Bool × List String)
  | [] => .ok (true, [])
  | m :: ms =>
    match get_build_command m cr bmiss with
    | none => .exn
    | some cmd =>
      if env.runCmd rp cmd ≠ 0 then .ok (false, [cmd])
      else
        match buildModesLoop env rp cr bmiss ms with
        | .exn => .exn
        | .ok (b, cmds) => .ok (b, cmd :: cmds)

/-- Observable outcome of `TerminusRepo.build`: the returned value
(`None`/`True`/`False` as `Option Bool`), the process working directory
after the call, and the build commands invoked, in order. -/
structure BuildOutcome where
  result : Option Bool
  cwd : String
  invoked : List String
deriving DecidableEq

/-- `TerminusRepo.build` (tmns-build-all.py lines 75-105), started with the
process working directory at `cwd`.
* `repo_path = None`: `os.path.exists(None)` raises `TypeError`.
* path missing on disk: log and `return` (Python `None`), cwd untouched.
* otherwise `orig_path = os.getcwd()`, `os.chdir(repo_path)`, run the mode
  loop; on a failing mode `return False` fires while the cwd is still the
  repository path (the `os.chdir(orig_path)` of line 103 is not executed);
  on success line 103 restores the original cwd and `True` is returned. -/
def TerminusRepo.build (r : TerminusRepo) (env : Env) (cwd : String) :
    PyResult BuildOutcome :=
  match r.repo_path with
  | none => .exn
  | some rp =>
    if env.pathExists rp = false then
      .ok ⟨none, cwd, []⟩
    else
      match buildModesLoop env rp r.clean_repo r.build_missing r.build_modes with
      | .exn => .exn
      | .ok (false, cmds) => .ok ⟨some false, rp, cmds⟩
      | .ok (true, cmds) => .ok ⟨some true, cwd, cmds⟩

/-- `TerminusProfile` (tmns-build-all.py lines 117-120). -/
structure TerminusProfile where
  repos : List TerminusRepo
deriving DecidableEq

/-- The compiled-in default profile built by `load_profile` when no profile
file is used (tmns-build-all.py lines 149-159). -/
def defaultProfile (build_modes : List String) (clean_repos : Option Bool)
    (build_missing : Bool) : TerminusProfile :=
  ⟨DEFAULT_REPO_LIST.map (fun repo =>
      TerminusRepo.init repo (some repo) build_modes clean_repos build_missing)⟩

/-- Body of the `for repo in profile_cfg.get('app','repos').split('\n')`
loop (tmns-build-all.py lines 170-193) for one stripped repository name.
* missing section: `profile_cfg[repo_name]` raises `KeyError`;
* `build` resolving to `False` skips the record (`.ok none`);
* missing `build_modes`: `None.split(',')` raises `AttributeError`;
* a caller-supplied `clean_repos` that is not `None` replaces the record's
  own `clean_repo` before construction. -/
def parseRepoSection (cfg : Config) (repo_name : String)
    (clean_repos : Option Bool) (build_missing : Bool) :
    PyResult (Option TerminusRepo) :=
  match cfg.findSection repo_name with
  | none => .exn
  | some kvs =>
    match getbooleanOpt kvs "build" with
    | .exn => .exn
    | .ok b =>
      if b = some false then .ok none
      else
        match lookupKey kvs "build_modes" with
        | none => .exn
        | some bmStr =>
          match getbooleanOpt kvs "clean_repo" with
          | .exn => .exn
          | .ok cfg_clean_repo =>
            let eff_clean := match clean_repos with
              | some c => some c
              | none => cfg_clean_repo
            .ok (some (TerminusRepo.init repo_name (lookupKey kvs "path")
                        (pySplitChar ',' bmStr) eff_clean build_missing))

/-- The whole repository loop of `load_profile`, over the already-stripped
repository names. -/
def parseRepoList (cfg : Config) (clean_repos : Option Bool)
    (build_missing : Bool) : List String → PyResult (List TerminusRepo)
  | [] => .ok []
  | name :: rest =>
    match parseRepoSection cfg name clean_repos build_missing with
    | .exn => .exn
    | .ok none => parseRepoList cfg clean_repos build_missing rest
    | .ok (some repo) =>
      (parseRepoList cfg clean_repos build_missing rest).map (fun rs => repo :: rs)

/-- Parsing of a profile file (tmns-build-all.py lines 161-197):
`profile_cfg.get('app','repos')` raises when the section or option is
missing; the value is split on newlines, each name stripped of spaces and
newlines, and each resulting section parsed. -/
def parseProfileFile (cfg : Config) (clean_repos : Option Bool)
    (build_missing : Bool) : PyResult (Option TerminusProfile) :=
  match cfg.getValue "app" "repos" with
  | none => .exn
  | some reposVal =>
    match parseRepoList cfg clean_repos build_missing
        ((pySplitChar '\n' reposVal).map (pyStrip [' ', '\n'])) with
    | .exn => .exn
    | .ok repos => .ok (some ⟨repos⟩)

/-- `load_profile` (tmns-build-all.py lines 131-197).  The branch structure
mirrors the `if/elif` chain:
* explicit path given and missing on disk → `return None` (line 139);
* no explicit path, profiles not ignored, default file present → parse the
  default file (line 144, falling through to line 162);
* no explicit path or `ignore_profiles` set → compiled-in defaults
  (line 149);
* otherwise (explicit existing path, profiles not ignored) → parse it. -/
def load_profile (env : Env) (profile_path : Option String)
    (ignore_profiles : Bool) (build_modes : List String)
    (clean_repos : Option Bool) (build_missing : Bool) :
    PyResult (Option TerminusProfile) :=
  match profile_path with
  | some pp =>
    if env.pathExists pp = false then .ok none
    else if ignore_profiles then
      .ok (some (defaultProfile build_modes clean_repos build_missing))
    else parseProfileFile (env.fileConfig pp) clean_repos build_missing
  | none =>
    if ignore_profiles = false ∧ env.pathExists DEFAULT_PROFILE_PATH then
      parseProfileFile (env.fileConfig DEFAULT_PROFILE_PATH) clean_repos build_missing
    else .ok (some (defaultProfile build_modes clean_repos build_missing))

/-- The `for repo in profile.repos` loop of `main` (tmns-build-all.py lines
297-304), threading the process working directory.  The value returned by
`main` is the exit code (`1` on the halt path, `0` when the loop falls
through, embedding Python's implicit `None`).  The third component is the
ghost build report: one `(repo_name, result)` entry per record processed,
in processing order. -/
def mainLoop (env : Env) (allow_failures : Bool) :
    List TerminusRepo → String → PyResult (Nat × String × List (String × Option Bool))
  | [], cwd => .ok (0, cwd, [])
  | r :: rs, cwd =>
    match r.build env cwd with
    | .exn => .exn
    | .ok out =>
      if allow_failures = false ∧ out.result = some false then
        .ok (1, out.cwd, [(r.repo_name, out.result)])
      else
        match mainLoop env allow_failures rs out.cwd with
        | .exn => .exn
        | .ok (ec, cwd2, res) => .ok (ec, cwd2, (r.repo_name, out.result) :: res)

/-- `main` (tmns-build-all.py lines 276-304): load the profile, return exit
code 1 when loading produced `None`, else run the build loop. -/
def main (env : Env) (profile_path : Option String) (ignore_profiles : Bool)
    (build_modes : List String) (clean_repos : Option Bool)
    (build_missing : Bool) (allow_failures : Bool) (cwd : String) :
    PyResult (Nat × String × List (String × Option Bool)) :=
  match load_profile env profile_path ignore_profiles build_modes clean_repos build_missing with
  | .exn => .exn
  | .ok none => .ok (1, cwd, [])
  | .ok (some profile) => mainLoop env allow_failures profile.repos cwd

/-- The ghost build report produced by the main loop. -/
def mainResults (env : Env) (allow_failures : Bool) (repos : List TerminusRepo)
    (cwd : String) : PyResult (List (String × Option Bool)) :=
  (mainLoop env allow_failures repos cwd).map (fun t => t.2.2)

/-- The exit code produced by the main loop. -/
def mainExit (env : Env) (allow_failures : Bool) (repos : List TerminusRepo)
    (cwd : String) : PyResult Nat :=
  (mainLoop env allow_failures repos cwd).map (fun t => t.1)

/-- The value `TerminusRepo.build` returns for a record, which is
independent of the working directory the call starts in (`none` stands in
for the crash case, which the theorems exclude by hypothesis). -/
def okStatus (env : Env) (r : TerminusRepo) : Option Bool :=
  match r.build env "" with
  | .ok out => out.result
  | .exn => none

/-- A record whose build does not raise an uncaught exception. -/
def noCrash (env : Env) (r : TerminusRepo) : Prop :=
  r.build env "" ≠ .exn

/-- Reference description of one halt-on-failure pass: the exit code and
the report the main loop produces with `allow_failures = False`. -/
def haltRun (env : Env) : List TerminusRepo → Nat × List (String × Option Bool)
  | [] => (0, [])
  | r :: rs =>
    if okStatus env r = some false then
      (1, [(r.repo_name, okStatus env r)])
    else
      ((haltRun env rs).1, (r.repo_name, okStatus env r) :: (haltRun env rs).2)

/-- `Repo` from scripts/utils/tmns/profile.py. -/
structure Repo where
  repo_name : String
  build : Bool
  repo_url : String
  branch_name : String
  tags : List String
deriving DecidableEq

/-- The inner matching loop of tmns-clone-repos.py `main` (lines 125-129):
`matched` is true when some tag of the record occurs in the requested
tags. -/
def tagMatched (requested : List String) (r : Repo) : Bool :=
  r.tags.any (fun tag => requested.contains tag)

/-- The tag-filtering skeleton of the `for repo in profile.repos` loop of
tmns-clone-repos.py `main` (lines 122-131): the records that survive the
`continue` and reach the clone stage, in order.  When the requested tag
list is empty the guard body is never entered. -/
def cloneSelection (requested : List String) : List Repo → List Repo
  | [] => []
  | r :: rs =>
    if requested.length > 0 ∧ tagMatched requested r = false then
      cloneSelection requested rs
    else
      r :: cloneSelection requested rs

instance (env : Env) (r : TerminusRepo) : Decidable (noCrash env r) :=
  inferInstanceAs (Decidable (r.build env "" ≠ .exn))

def envFail : Env := ⟨fun p => p == "terminus-log", fun _ _ => 1, fun _ => ⟨[]⟩⟩

def envFailOk : Env := ⟨fun p => p == "terminus-log", fun _ _ => 0, fun _ => ⟨[]⟩⟩

def repoFail : TerminusRepo :=
  ⟨"terminus-log", some "terminus-log", ["release"], some false, false⟩

def repoA : TerminusRepo := ⟨"A", some "pa", ["release"], some true, false⟩

def repoB : TerminusRepo := ⟨"B", some "pb", ["release"], some true, false⟩

def repoC : TerminusRepo := ⟨"C", some "pc", ["release"], some true, false⟩

def envSeq : Env :=
  ⟨fun p => p == "pa" || p == "pb" || p == "pc",
   fun cwd _ => if cwd == "pb" then 1 else 0,
   fun _ => ⟨[]⟩⟩

def cfgOverride : Config :=
  ⟨[("app", [("repos", "repo1")]),
    ("repo1", [("path", "repo1"), ("build_modes", "release,debug")])]⟩

def envOverride : Env := ⟨fun p => p == "prof.cfg", fun _ _ => 0, fun _ => cfgOverride⟩

def envExplicit : Env :=
  ⟨fun p => p == "myprof.cfg", fun _ _ => 0,
   fun _ => ⟨[("app", [("repos", "alpha")]),
              ("alpha", [("path", "alpha"), ("build_modes", "release")])]⟩⟩

def envMissing : Env :=
  ⟨fun p => p == DEFAULT_PROFILE_PATH, fun _ _ => 0, fun _ => ⟨[]⟩⟩

def repoCpp : Repo := ⟨"ca", true, "u1", "main", ["cpp"]⟩

def repoDocs : Repo := ⟨"cd", true, "u2", "main", ["docs"]⟩

def envSkip : Env := ⟨fun _ => false, fun _ _ => 0, fun _ => ⟨[]⟩⟩

def repoGhost : TerminusRepo := ⟨"ghost", some "gp", ["release"], some true, false⟩

def cfgNoPath : Config :=
  ⟨[("app", [("repos", "beta")]), ("beta", [("build_modes", "release")])]⟩

def envNoPath : Env := ⟨fun p => p == "p.cfg", fun _ _ => 0, fun _ => cfgNoPath⟩

def envModes : Env := ⟨fun p => p == "pd", fun _ _ => 1, fun _ => ⟨[]⟩⟩

def repoModes : TerminusRepo := ⟨"demo", some "pd", ["release", "debug"], some true, false⟩

theorem build_result_indep (env : Env) (r : TerminusRepo) (cwd : String) :
    (r.build env cwd).map BuildOutcome.result =
      (r.build env "").map BuildOutcome.result := by
  unfold TerminusRepo.build
  cases r.repo_path with
  | none => rfl
  | some rp =>
    by_cases h : env.pathExists rp = false
    · simp [h, PyResult.map]
    · simp only [h, if_false]
      cases buildModesLoop env rp r.clean_repo r.build_missing r.build_modes with
      | exn => rfl
      | ok p =>
        rcases p with ⟨b, cmds⟩
        cases b <;> rfl

theorem build_ok_result (env : Env) (r : TerminusRepo) (cwd : String)
    (h : noCrash env r) :
    ∃ out, r.build env cwd = .ok out ∧ out.result = okStatus env r := by
  have hind := build_result_indep env r cwd
  unfold noCrash at h
  unfold okStatus
  cases h0 : r.build env "" with
  | exn => exact absurd h0 h
  | ok o =>
    rw [h0] at hind
    cases hc : r.build env cwd with
    | exn => rw [hc] at hind; simp [PyResult.map] at hind
    | ok out =>
      rw [hc] at hind
      simp only [PyResult.map, PyResult.ok.injEq] at hind
      exact ⟨out, rfl, hind⟩

theorem mainLoop_allow_all (env : Env) (repos : List TerminusRepo) :
    ∀ (cwd : String), (∀ r ∈ repos, noCrash env r) →
    mainResults env true repos cwd =
      .ok (repos.map (fun r => (r.repo_name, okStatus env r))) ∧
    mainExit env true repos cwd = .ok 0 := by
  induction repos with
  | nil => intro cwd _; exact ⟨rfl, rfl⟩
  | cons r rs ih =>
    intro cwd h
    obtain ⟨out, hb, hres⟩ := build_ok_result env r cwd (h r (by simp))
    have hrs : ∀ x ∈ rs, noCrash env x := fun x hx => h x (by simp [hx])
    have ihh := ih out.cwd hrs
    unfold mainResults mainExit at ihh ⊢
    cases hm : mainLoop env true rs out.cwd with
    | exn => rw [hm] at ihh; simp [PyResult.map] at ihh
    | ok t =>
      rcases t with ⟨ec, cwd2, res⟩
      rw [hm] at ihh
      simp only [PyResult.map, PyResult.ok.injEq] at ihh
      simp only [mainLoop, hb]
      have hcond : ¬ (true = false ∧ out.result = some false) := by simp
      rw [if_neg hcond, hm]
      simp [PyResult.map, ihh.1, ihh.2, hres]

theorem mainLoop_halt (env : Env) (repos : List TerminusRepo) :
    ∀ (cwd : String), (∀ r ∈ repos, noCrash env r) →
    mainResults env false repos cwd = .ok (haltRun env repos).2 ∧
    mainExit env false repos cwd = .ok (haltRun env repos).1 := by
  induction repos with
  | nil => intro cwd _; exact ⟨rfl, rfl⟩
  | cons r rs ih =>
    intro cwd h
    obtain ⟨out, hb, hres⟩ := build_ok_result env r cwd (h r (by simp))
    have hrs : ∀ x ∈ rs, noCrash env x := fun x hx => h x (by simp [hx])
    have ihh := ih out.cwd hrs
    unfold mainResults mainExit at ihh ⊢
    by_cases hf : okStatus env r = some false
    · have hcond : (false = false ∧ out.result = some false) := ⟨rfl, by rw [hres, hf]⟩
      simp only [mainLoop, hb, if_pos hcond]
      simp [PyResult.map, haltRun, hf, hres]
    · have hcond : ¬ (false = false ∧ out.result = some false) := by
        intro hc; exact hf (hres ▸ hc.2)
      simp only [mainLoop, hb, if_neg hcond]
      cases hm : mainLoop env false rs out.cwd with
      | exn => rw [hm] at ihh; simp [PyResult.map] at ihh
      | ok t =>
        rcases t with ⟨ec, cwd2, res⟩
        rw [hm] at ihh
        simp only [PyResult.map, PyResult.ok.injEq] at ihh
        simp [PyResult.map, haltRun, hf, hres, ihh.1, ihh.2]

theorem haltRun_split (env : Env) (as : List TerminusRepo) :
    ∀ (f : TerminusRepo) (bs : List TerminusRepo),
    (∀ a ∈ as, okStatus env a ≠ some false) → okStatus env f = some false →
    haltRun env (as ++ f :: bs) =
      (1, (as ++ [f]).map (fun r => (r.repo_name, okStatus env r))) := by
  induction as with
  | nil => intro f bs _ hf; simp [haltRun, hf]
  | cons a as ih =>
    intro f bs ha hf
    have hne : ¬ okStatus env a = some false := ha a (by simp)
    have ihh := ih f bs (fun x hx => ha x (by simp [hx])) hf
    simp [haltRun, hne, ihh]

theorem init_clean (name : String) (path : Option String) (modes : List String)
    (cr : Option Bool) (bm : Bool) :
    (1 < (TerminusRepo.init name path modes cr bm).build_modes.length →
      (TerminusRepo.init name path modes cr bm).clean_repo = some true) ∧
    ((TerminusRepo.init name path modes cr bm).build_modes.length ≤ 1 →
      (TerminusRepo.init name path modes cr bm).clean_repo = cr) := by
  unfold TerminusRepo.init
  set bm2 := if modes.length = 0 then ["release", "debug"] else modes with hbm2
  simp only
  constructor
  · intro h
    rw [if_pos]
    exact h
  · intro h
    rw [if_neg]
    omega

theorem init_repo_path (name : String) (path : Option String) (modes : List String)
    (cr : Option Bool) (bm : Bool) :
    (TerminusRepo.init name path modes cr bm).repo_path = path := rfl

theorem init_empty_modes (name : String) (path : Option String)
    (cr : Option Bool) (bm : Bool) :
    (TerminusRepo.init name path [] cr bm).build_modes = ["release", "debug"] ∧
    (TerminusRepo.init name path [] cr bm).clean_repo = some true := ⟨rfl, rfl⟩

theorem parseRepoSection_ok (cfg : Config) (name : String) (cr : Option Bool)
    (bmiss : Bool) (r : TerminusRepo)
    (h : parseRepoSection cfg name cr bmiss = .ok (some r)) :
    ∃ kvs bmStr cc, cfg.findSection name = some kvs ∧
      lookupKey kvs "build_modes" = some bmStr ∧
      r = TerminusRepo.init name (lookupKey kvs "path") (pySplitChar ',' bmStr)
            (match cr with | some c => some c | none => cc) bmiss := by
  unfold parseRepoSection at h
  split at h
  · simp at h
  next kvs hs =>
    split at h
    · simp at h
    next b hb =>
      split at h
      · simp at h
      · split at h
        · simp at h
        next bmStr hm =>
          split at h
          · simp at h
          next cc hc =>
            simp only [PyResult.ok.injEq, Option.some.injEq] at h
            exact ⟨kvs, bmStr, cc, hs, hm, h.symm⟩

theorem buildModesLoop_halts (env : Env) (rp : String) (cr : Option Bool)
    (bmiss : Bool) (ms1 : List String) :
    ∀ (m : String) (ms2 : List String) (f : String → String) (cmdF : String),
    (∀ x ∈ ms1, get_build_command x cr bmiss = some (f x) ∧ env.runCmd rp (f x) = 0) →
    get_build_command m cr bmiss = some cmdF →
    env.runCmd rp cmdF ≠ 0 →
    buildModesLoop env rp cr bmiss (ms1 ++ m :: ms2) =
      .ok (false, ms1.map f ++ [cmdF]) := by
  induction ms1 with
  | nil =>
    intro m ms2 f cmdF _ hm hfail
    simp [buildModesLoop, hm, hfail]
  | cons x xs ih =>
    intro m ms2 f cmdF hall hm hfail
    have hx := hall x (by simp)
    have ihh := ih m ms2 f cmdF (fun y hy => hall y (by simp [hy])) hm hfail
    simp [buildModesLoop, hx.1, hx.2, ihh]

theorem cloneSelection_nil_requested (repos : List Repo) :
    cloneSelection [] repos = repos := by
  induction repos with
  | nil => rfl
  | cons r rs ih => simp [cloneSelection, ih]

theorem cloneSelection_filter (requested : List String) (hne : requested ≠ [])
    (repos : List Repo) :
    cloneSelection requested repos = repos.filter (fun r => tagMatched requested r) := by
  have hlen : requested.length > 0 := List.length_pos.mpr hne
  induction repos with
  | nil => rfl
  | cons r rs ih =>
    by_cases hm : tagMatched requested r = false
    · simp [cloneSelection, hlen, hm, List.filter, ih]
    · have hm2 : tagMatched requested r = true := by
        cases htm : tagMatched requested r
        · exact absurd htm hm
        · rfl
      simp [cloneSelection, hlen, hm, hm2, List.filter, ih]

/-- Claim C1 (code bug evidence): starting from working directory
`/home/user`, building an existing repository whose single mode fails
returns `False` with the process working directory left at the repository
path, not restored to `/home/user`; the success path does restore it. -/
theorem build_failure_leaves_cwd_unrestored :
    repoFail.build envFail "/home/user" =
      .ok ⟨some false, "terminus-log", ["conan-build.sh -r  "]⟩ ∧
    ("terminus-log" : String) ≠ "/home/user" ∧
    repoFail.build envFailOk "/home/user" =
      .ok ⟨some true, "/home/user", ["conan-build.sh -r  "]⟩ :=
  ⟨by decide, by decide, by decide⟩

/-- Claim C2: the build loop processes records in profile order; with
halt-on-failure (allow-failures off) and a first failing record `f`, the
report covers exactly the records up to and including `f` and the exit
code is 1; with allow-failures on, every record is attempted, the report
maps each record to its own result, and the loop falls through (exit 0). -/
theorem build_sequencer_order_and_halt_policy
    (env : Env) (repos as bs : List TerminusRepo) (f : TerminusRepo) (cwd : String)
    (hok : ∀ r ∈ repos, noCrash env r)
    (hsplit : repos = as ++ f :: bs)
    (has : ∀ a ∈ as, okStatus env a ≠ some false)
    (hf : okStatus env f = some false) :
    mainResults env true repos cwd =
      .ok (repos.map (fun r => (r.repo_name, okStatus env r))) ∧
    mainExit env true repos cwd = .ok 0 ∧
    mainResults env false repos cwd =
      .ok ((as ++ [f]).map (fun r => (r.repo_name, okStatus env r))) ∧
    mainExit env false repos cwd = .ok 1 := by
  subst hsplit
  have h1 := mainLoop_allow_all env (as ++ f :: bs) cwd hok
  have h2 := mainLoop_halt env (as ++ f :: bs) cwd hok
  have h3 := haltRun_split env as f bs has hf
  rw [h3] at h2
  exact ⟨h1.1, h1.2, h2.1, h2.2⟩

/-- Witness for claim C2 at the spec's own example: repositories A, B, C
where B fails; halt-on-failure reports A and B only with exit 1,
allow-failures attempts all three. -/
theorem build_sequencer_order_and_halt_policy_witness :
    mainResults envSeq true [repoA, repoB, repoC] "/w" =
      .ok [("A", some true), ("B", some false), ("C", some true)] ∧
    mainResults envSeq false [repoA, repoB, repoC] "/w" =
      .ok [("A", some true), ("B", some false)] ∧
    mainExit envSeq false [repoA, repoB, repoC] "/w" = .ok 1 := by
  have h := build_sequencer_order_and_halt_policy envSeq [repoA, repoB, repoC]
    [repoA] [repoC] repoB "/w" (by decide) rfl (by decide) (by decide)
  exact ⟨h.1.trans (by decide), h.2.2.1.trans (by decide), h.2.2.2⟩

/-- Claim C3: after construction, a record whose resolved mode list has
more than one entry has its clean flag forced to `True` no matter what
clean value was passed in; the empty mode list resolves to
release-then-debug (and therefore is also forced clean). -/
theorem multi_mode_forces_clean (name : String) (path : Option String)
    (modes : List String) (cr : Option Bool) (bm : Bool)
    (h : 1 < (TerminusRepo.init name path modes cr bm).build_modes.length) :
    (TerminusRepo.init name path modes cr bm).clean_repo = some true ∧
    (TerminusRepo.init name path [] cr bm).build_modes = ["release", "debug"] ∧
    (TerminusRepo.init name path [] cr bm).clean_repo = some true :=
  ⟨(init_clean name path modes cr bm).1 h, (init_empty_modes name path cr bm).1,
   (init_empty_modes name path cr bm).2⟩

/-- Witness for claim C3: two explicit modes with clean passed as `False`
still construct with clean `True`. -/
theorem multi_mode_forces_clean_witness :
    (TerminusRepo.init "x" none ["release", "debug"] (some false) false).clean_repo
      = some true :=
  (multi_mode_forces_clean "x" none ["release", "debug"] (some false) false
    (by decide)).1

/-- Counterexample for claim C4: loading a profile whose only record lists
two build modes, with the global clean flag explicitly set to `False`,
still yields a record whose effective clean flag is `True` — the
multi-mode invariant is applied in the constructor after the global
override, so the explicit global setting does not win. -/
theorem global_clean_false_overridden_counterexample :
    load_profile envOverride (some "prof.cfg") false [] (some false) false =
      .ok (some ⟨[⟨"repo1", some "repo1", ["release", "debug"], some true, false⟩]⟩) ∧
    (some true : Option Bool) ≠ some false :=
  ⟨by decide, by decide⟩

/-- Claim C4 amended: precedence is multi-mode invariant over explicit
global setting.  For every record loaded from a profile section with an
explicit global clean value `g`: when the resolved mode list has more than
one entry the effective clean flag is `True` regardless of `g`; the
explicit global setting determines the flag only when at most one mode is
selected. -/
theorem multi_mode_invariant_beats_global_clean (cfg : Config) (name : String)
    (g : Bool) (bmiss : Bool) (r : TerminusRepo)
    (h : parseRepoSection cfg name (some g) bmiss = .ok (some r)) :
    (1 < r.build_modes.length → r.clean_repo = some true) ∧
    (r.build_modes.length ≤ 1 → r.clean_repo = some g) := by
  obtain ⟨kvs, bmStr, cc, hs, hm, hr⟩ := parseRepoSection_ok cfg name (some g) bmiss r h
  subst hr
  exact init_clean name (lookupKey kvs "path") (pySplitChar ',' bmStr) (some g) bmiss

/-- Witness for the amended claim C4, at the counterexample's input. -/
theorem multi_mode_invariant_beats_global_clean_witness :
    (⟨"repo1", some "repo1", ["release", "debug"], some true, false⟩
      : TerminusRepo).clean_repo = some true := by
  have h := multi_mode_invariant_beats_global_clean cfgOverride "repo1" false false
    ⟨"repo1", some "repo1", ["release", "debug"], some true, false⟩ (by decide)
  exact h.1 (by decide)

/-- Counterexample for claim C5: with an explicit profile path that exists
on disk and the ignore-profiles flag set, the loader returns the
compiled-in default profile instead of parsing the file, so the claim's
"for both values of the ignore-defaults flag" and "compiled-in default
only when no explicit path is given" both fail. -/
theorem explicit_path_ignored_counterexample :
    load_profile envExplicit (some "myprof.cfg") true [] none false =
      .ok (some (defaultProfile [] none false)) ∧
    load_profile envExplicit (some "myprof.cfg") true [] none false ≠
      parseProfileFile (envExplicit.fileConfig "myprof.cfg") none false :=
  ⟨by decide, by decide⟩

/-- Claim C5 amended: an explicit existing profile path is parsed exactly
when the ignore-profiles flag is off; with the flag on, the compiled-in
default profile is returned even though the explicit path exists. -/
theorem profile_resolution_amended (env : Env) (pp : String) (bm : List String)
    (cr : Option Bool) (bmiss : Bool) (hex : env.pathExists pp = true) :
    load_profile env (some pp) false bm cr bmiss =
      parseProfileFile (env.fileConfig pp) cr bmiss ∧
    load_profile env (some pp) true bm cr bmiss =
      .ok (some (defaultProfile bm cr bmiss)) := by
  unfold load_profile
  simp [hex]

/-- Witness for the amended claim C5: a concrete existing profile file is
parsed when ignore-profiles is off, and bypassed when it is on. -/
theorem profile_resolution_amended_witness :
    load_profile envExplicit (some "myprof.cfg") false [] none false =
      .ok (some ⟨[⟨"alpha", some "alpha", ["release"], none, false⟩]⟩) ∧
    load_profile envExplicit (some "myprof.cfg") true [] none false =
      .ok (some (defaultProfile [] none false)) := by
  have h := profile_resolution_amended envExplicit "myprof.cfg" [] none false (by decide)
  exact ⟨h.1.trans (by decide), h.2⟩

/-- Claim C6: an explicit profile path that does not exist makes
`load_profile` return `None` and `main` exit with code 1, for every
environment — in particular independently of whether the conventional
default profile file exists in the working directory. -/
theorem missing_explicit_profile_fails (env : Env) (pp : String)
    (ign : Bool) (bm : List String) (cr : Option Bool) (bmiss allow : Bool)
    (cwd : String) (h : env.pathExists pp = false) :
    load_profile env (some pp) ign bm cr bmiss = .ok none ∧
    main env (some pp) ign bm cr bmiss allow cwd = .ok (1, cwd, []) := by
  have hl : load_profile env (some pp) ign bm cr bmiss = .ok none := by
    unfold load_profile
    simp [h]
  exact ⟨hl, by unfold main; rw [hl]⟩

/-- Witness for claim C6: the explicit path `missing.cfg` does not exist
while the default profile file does exist, and loading still fails with
exit code 1. -/
theorem missing_explicit_profile_fails_witness :
    envMissing.pathExists DEFAULT_PROFILE_PATH = true ∧
    load_profile envMissing (some "missing.cfg") false [] none false = .ok none ∧
    main envMissing (some "missing.cfg") false [] none false false "/w" =
      .ok (1, "/w", []) := by
  have h := missing_explicit_profile_fails envMissing "missing.cfg" false [] none
    false false "/w" (by decide)
  exact ⟨by decide, h.1, h.2⟩

/-- Claim C7: tag selection in the clone loop.  An empty requested-tag
list is the identity (every record kept, order preserved); a non-empty
requested list keeps exactly the records whose tag list intersects it,
order preserved; when no record matches, the selection is empty rather
than an error. -/
theorem tag_filter_identity_and_intersection (requested : List String)
    (repos : List Repo) :
    cloneSelection [] repos = repos ∧
    (requested ≠ [] →
      cloneSelection requested repos =
        repos.filter (fun r => tagMatched requested r)) ∧
    (requested ≠ [] → (∀ r ∈ repos, tagMatched requested r = false) →
      cloneSelection requested repos = []) := by
  refine ⟨cloneSelection_nil_requested repos,
    fun h => cloneSelection_filter requested h repos, fun h hall => ?_⟩
  rw [cloneSelection_filter requested h repos]
  exact List.filter_eq_nil_iff.mpr (fun a ha => by simp [hall a ha])

/-- Witness for claim C7: empty tags keep both records, tag `cpp` keeps
exactly the matching record, an unmatched tag yields the empty
selection. -/
theorem tag_filter_identity_and_intersection_witness :
    cloneSelection [] [repoCpp, repoDocs] = [repoCpp, repoDocs] ∧
    cloneSelection ["cpp"] [repoCpp, repoDocs] = [repoCpp] ∧
    cloneSelection ["zz"] [repoCpp, repoDocs] = [] := by
  have h := tag_filter_identity_and_intersection ["zz"] [repoCpp, repoDocs]
  have h2 := tag_filter_identity_and_intersection ["cpp"] [repoCpp, repoDocs]
  exact ⟨h.1, (h2.2.1 (by decide)).trans (by decide), h.2.2 (by decide) (by decide)⟩

/-- Claim C8: a record whose local path is a string naming a non-existent
location is skipped: its build invokes no command, returns Python `None`
and leaves the working directory unchanged, and the main loop continues
with the remaining records under either halt policy, recording the skip
and no failure. -/
theorem missing_local_path_skipped (env : Env) (r : TerminusRepo) (p cwd : String)
    (rs : List TerminusRepo) (allow : Bool)
    (hp : r.repo_path = some p) (hex : env.pathExists p = false) :
    r.build env cwd = .ok ⟨none, cwd, []⟩ ∧
    mainLoop env allow (r :: rs) cwd =
      (mainLoop env allow rs cwd).map
        (fun t => (t.1, t.2.1, (r.repo_name, (none : Option Bool)) :: t.2.2)) := by
  have hb : r.build env cwd = .ok ⟨none, cwd, []⟩ := by
    unfold TerminusRepo.build
    rw [hp]
    simp [hex]
  refine ⟨hb, ?_⟩
  simp only [mainLoop, hb]
  have hcond : ¬ (allow = false ∧ (none : Option Bool) = some false) := by simp
  rw [if_neg hcond]
  cases mainLoop env allow rs cwd with
  | exn => rfl
  | ok t =>
    rcases t with ⟨ec, cwd2, res⟩
    rfl

/-- Witness for claim C8: a record whose path does not exist produces a
skip entry, no failure, and the halt-on-failure run still completes with
exit code 0. -/
theorem missing_local_path_skipped_witness :
    repoGhost.build envSkip "/w" = .ok ⟨none, "/w", []⟩ ∧
    mainLoop envSkip false [repoGhost] "/w" = .ok (0, "/w", [("ghost", none)]) := by
  have h := missing_local_path_skipped envSkip repoGhost "gp" "/w" [] false rfl
    (by decide)
  exact ⟨h.1, h.2.trans (by decide)⟩

/-- Counterexample for claim C9: loading a profile whose section `beta`
declares no `path` key yields a record whose local path is Python `None`,
not the section identifier `beta`. -/
theorem missing_path_key_counterexample :
    load_profile envNoPath (some "p.cfg") false [] none false =
      .ok (some ⟨[⟨"beta", none, ["release"], none, false⟩]⟩) ∧
    (none : Option String) ≠ some "beta" :=
  ⟨by decide, by decide⟩

/-- Claim C9 amended: a listed section without a `path` key loads into a
record whose local path is Python `None` (there is no default to the
identifier), and building that record raises an uncaught `TypeError`
instead of building. -/
theorem missing_path_key_yields_none (cfg : Config) (name : String)
    (kvs : List (String × String)) (cr : Option Bool) (bmiss : Bool)
    (r : TerminusRepo) (env : Env) (cwd : String)
    (hs : cfg.findSection name = some kvs)
    (hnopath : lookupKey kvs "path" = none)
    (h : parseRepoSection cfg name cr bmiss = .ok (some r)) :
    r.repo_path = none ∧ r.build env cwd = .exn := by
  obtain ⟨kvs2, bmStr, cc, hs2, hm, hr⟩ := parseRepoSection_ok cfg name cr bmiss r h
  rw [hs] at hs2
  injection hs2 with hk
  subst hk
  subst hr
  rw [hnopath]
  exact ⟨init_repo_path _ _ _ _ _, by simp [TerminusRepo.build, init_repo_path]⟩

/-- Witness for the amended claim C9, at the counterexample's section. -/
theorem missing_path_key_yields_none_witness :
    (⟨"beta", none, ["release"], none, false⟩ : TerminusRepo).repo_path = none ∧
    (⟨"beta", (none : Option String), ["release"], none, false⟩
      : TerminusRepo).build envNoPath "/w" = .exn := by
  have h := missing_path_key_yields_none cfgNoPath "beta" [("build_modes", "release")]
    none false ⟨"beta", none, ["release"], none, false⟩ envNoPath "/w"
    (by decide) (by decide) (by decide)
  exact h

/-- Claim C10: within one record, the mode loop invokes the build command
of each mode before the first failing one, invokes the failing mode's
command, and then returns failure at once — no command of any later mode
is ever invoked. -/
theorem first_failing_mode_halts_record (env : Env) (r : TerminusRepo)
    (rp cwd : String) (ms1 : List String) (m : String) (ms2 : List String)
    (f : String → String) (cmdF : String)
    (hp : r.repo_path = some rp)
    (hex : env.pathExists rp = true)
    (hmodes : r.build_modes = ms1 ++ m :: ms2)
    (hall : ∀ x ∈ ms1, get_build_command x r.clean_repo r.build_missing = some (f x)
        ∧ env.runCmd rp (f x) = 0)
    (hm : get_build_command m r.clean_repo r.build_missing = some cmdF)
    (hfail : env.runCmd rp cmdF ≠ 0) :
    r.build env cwd = .ok ⟨some false, rp, ms1.map f ++ [cmdF]⟩ := by
  have hloop := buildModesLoop_halts env rp r.clean_repo r.build_missing ms1 m ms2
    f cmdF hall hm hfail
  unfold TerminusRepo.build
  rw [hp]
  simp [hex, hmodes, hloop]

/-- Witness for claim C10: a record with modes release-then-debug whose
release build fails invokes only the release command — the debug mode is
never attempted. -/
theorem first_failing_mode_halts_record_witness :
    repoModes.build envModes "/w" =
      .ok ⟨some false, "pd", ["conan-build.sh -r -c "]⟩ := by
  have h := first_failing_mode_halts_record envModes repoModes "pd" "/w" []
    "release" ["debug"] (fun x => x) "conan-build.sh -r -c " rfl (by decide) rfl
    (by intro x hx; simp at hx) (by decide) (by decide)
  exact h

end TerminusSetup
